import Mathlib

/-!
Verification of the Vigileye risk and threat scoring engine.

The definitions below are a shallow embedding of the JavaScript sources
under src/backend (services/nlpService.js, services/aiService.js,
services/otxService.js, routes/breach-lookup.js and the batch-analyze
route).  JavaScript numbers are embedded as naturals, integers or
rationals depending on the value range actually used; wall-clock
timestamp strings are left out of result records, and calendar dates are
embedded as integer day numbers.  External libraries (the sentiment
scorer, the compromise grammar tagger, the OpenAI client, the network
layer, Math.random) are modelled as explicit parameters.
-/

namespace Vigileye

/-! ### JavaScript primitives -/

/-- Lowercase a string character by character (String.prototype.toLowerCase
on the ASCII texts handled here). -/
def lowerStr (s : String) : String := String.mk (s.data.map Char.toLower)

/-- Math.round: round half toward positive infinity. -/
def jsRound (q : ℚ) : ℤ := (q + 1/2).floor

/-- Math.floor. -/
def jsFloor (q : ℚ) : ℤ := q.floor

/-- Does the pattern occur at the very start of the character list? -/
def subAt : List Char → List Char → Bool
  | [], _ => true
  | _ :: _, [] => false
  | p :: ps, c :: cs => p == c && subAt ps cs

/-- Does the pattern occur anywhere in the character list?  Embeds
String.prototype.includes. -/
def hasSub (pat : List Char) : List Char → Bool
  | [] => subAt pat []
  | c :: cs => subAt pat (c :: cs) || hasSub pat cs

/-- s.includes(pat) for strings. -/
def strIncludes (s pat : String) : Bool := hasSub pat.data s.data

/-- Word characters as recognised by the tokenizer of the natural
library: letters, digits and underscore. -/
def isWordChar (c : Char) : Bool := c.isAlphanum || c == '_'

/-- Accumulator-based splitting of a character list into maximal runs of
word characters. -/
def tokensAux : List Char → List Char → List String
  | [], acc => if acc.isEmpty then [] else [String.mk acc.reverse]
  | c :: cs, acc =>
    if isWordChar c then tokensAux cs (c :: acc)
    else if acc.isEmpty then tokensAux cs []
    else String.mk acc.reverse :: tokensAux cs []

/-- natural.WordTokenizer().tokenize: split into word-character runs. -/
def tokenize (text : String) : List String := tokensAux text.data []

/-! ### External capabilities used by nlpService

The sentiment npm package and the compromise grammar tagger are
third-party libraries, not part of this repository.  They are modelled
from the spec (section 4.1 and 4.2 step 1). -/

/-- Result shape of sentiment.analyze. -/
structure SentimentResult where
  score : ℤ
  comparative : ℚ
  positive : List String
  negative : List String
  neutral : List String
deriving DecidableEq

/-- Modelled from the spec: the external sentiment library scores text by
summing an AFINN-style word valence over the lowercased tokens; the
comparative value is the score divided by the token count (section 4.2
step 1: signed integer score, comparative = score/tokenCount, plus
positive/negative/neutral token lists). -/
def sentimentAnalyze (afinn : String → ℤ) (text : String) : SentimentResult :=
  let ts := tokenize (lowerStr text)
  let sc := (ts.map afinn).sum
  { score := sc
    comparative := if ts.length = 0 then 0 else (sc : ℚ) / ts.length
    positive := ts.filter (fun w => 0 < afinn w)
    negative := ts.filter (fun w => afinn w < 0)
    neutral := ts.filter (fun w => afinn w = 0) }

/-- Modelled from the spec: organization/date/number extraction is done
by a general-purpose grammar tagger, treated as a capability and not a
specific library (section 4.1).  A tagger extracts phrases from the
text, so tagging the empty text yields nothing; that is the only fact
assumed about it. -/
structure GrammarTagger where
  organizations : String → List String
  dates : String → List String
  numbers : String → List String
  organizationsOnEmpty : organizations "" = []
  datesOnEmpty : dates "" = []
  numbersOnEmpty : numbers "" = []

/-- The external capabilities nlpService is built on: the sentiment
lexicon, the stop-word list of the natural library, and the grammar
tagger. -/
structure ExternalNLP where
  afinn : String → ℤ
  stopWords : List String
  tagger : GrammarTagger

/-! ### A small backtracking regular-expression engine

nlpService extracts emails, URLs, IPv4 addresses and phone numbers with
JavaScript regexes; the engine below reproduces their leftmost greedy
backtracking semantics over character lists. -/

/-- Regular expression syntax: empty word, one-character class,
concatenation, ordered alternation, greedy Kleene star, and the word
boundary assertion. -/
inductive Re where
  | eps : Re
  | cls (p : Char → Bool) : Re
  | cat (a b : Re) : Re
  | alt (a b : Re) : Re
  | star (a : Re) : Re
  | bnd : Re

/-- Word-character test on an optional neighbouring character (edges of
the input count as non-word). -/
def isWordAt : Option Char → Bool
  | some c => isWordChar c
  | none => false

/-- Backtracking matcher in continuation style.  The continuation
receives the preceding character and the rest of the input and returns
the remaining length on acceptance.  Fuel bounds the recursion; every
star body used here consumes at least one character, so a fuel larger
than the input length does not change the result. -/
def reRun (fuel : ℕ) (r : Re) (prev : Option Char) (s : List Char)
    (k : Option Char → List Char → Option ℕ) : Option ℕ :=
  match fuel with
  | 0 => none
  | fuel + 1 =>
    match r with
    | .eps => k prev s
    | .cls p =>
      match s with
      | [] => none
      | c :: cs => if p c then k (some c) cs else none
    | .cat a b => reRun fuel a prev s (fun p2 s2 => reRun fuel b p2 s2 k)
    | .alt a b =>
      (reRun fuel a prev s k).orElse (fun _ => reRun fuel b prev s k)
    | .star a =>
      (reRun fuel a prev s (fun p2 s2 =>
        if s2.length < s.length then reRun fuel (.star a) p2 s2 k else none)).orElse
        (fun _ => k prev s)
    | .bnd => if isWordAt prev != isWordAt s.head? then k prev s else none

/-- Length of the match of r at the current position, if any. -/
def reMatchLen (r : Re) (prev : Option Char) (s : List Char) : Option ℕ :=
  (reRun (4 * s.length + 64) r prev s (fun _ rest => some rest.length)).map
    (fun rest => s.length - rest)

/-- All matches of r in the input, left to right and non-overlapping:
String.prototype.match with the g flag.  Fuel is one step per scanned
position. -/
def scanAll (r : Re) : ℕ → Option Char → List Char → List String
  | 0, _, _ => []
  | _ + 1, _, [] => []
  | fuel + 1, prev, c :: cs =>
    match reMatchLen r prev (c :: cs) with
    | some (n + 1) =>
      String.mk ((c :: cs).take (n + 1)) ::
        scanAll r fuel (((c :: cs).take (n + 1)).getLast?) ((c :: cs).drop (n + 1))
    | _ => scanAll r fuel (some c) cs

/-- One-character class matching exactly c. -/
def reChar (c : Char) : Re := .cls (fun d => d == c)

/-- Literal word. -/
def reLit (cs : List Char) : Re := cs.foldr (fun c r => .cat (reChar c) r) .eps

/-- Greedy question mark. -/
def reOpt (r : Re) : Re := .alt r .eps

/-- Greedy plus. -/
def rePlus (r : Re) : Re := .cat r (.star r)

/-- Exactly n repetitions. -/
def reTimes (r : Re) : ℕ → Re
  | 0 => .eps
  | n + 1 => .cat r (reTimes r n)

/-- The email regex of extractEntities. -/
def emailRe : Re :=
  let localChar : Re := .cls (fun c => c.isAlphanum || c == '.' || c == '_' || c == '%' || c == '+' || c == '-')
  let domainChar : Re := .cls (fun c => c.isAlphanum || c == '.' || c == '-')
  let tldChar : Re := .cls (fun c => c.isAlpha || c == '|')
  .cat .bnd (.cat (rePlus localChar) (.cat (reChar '@') (.cat (rePlus domainChar)
    (.cat (reChar '.') (.cat (.cat (reTimes tldChar 2) (.star tldChar)) .bnd)))))

/-- The URL regex of extractEntities. -/
def urlRe : Re :=
  .cat (reLit "http".data) (.cat (reOpt (reChar 's'))
    (.cat (reLit "://".data) (rePlus (.cls (fun c => !c.isWhitespace)))))

/-- The IPv4 regex of extractEntities. -/
def ipRe : Re :=
  let digit : Re := .cls Char.isDigit
  let octet : Re := .cat digit (reOpt (.cat digit (reOpt digit)))
  .cat .bnd (.cat (reTimes (.cat octet (reChar '.')) 3) (.cat octet .bnd))

/-- The phone-number regex of extractEntities. -/
def phoneRe : Re :=
  let digit : Re := .cls Char.isDigit
  let sep : Re := reOpt (.cls (fun c => c == '-' || c == '.'))
  .cat .bnd (.cat (reTimes digit 3) (.cat sep (.cat (reTimes digit 3)
    (.cat sep (.cat (reTimes digit 4) .bnd)))))

/-- Run a global regex over a string, as text.match(re) with default []. -/
def regexMatches (r : Re) (text : String) : List String :=
  scanAll r (text.data.length + 1) none text.data

/-! ### nlpService -/

/-- The curated security keyword lexicon of nlpService. -/
def securityKeywords : List String :=
  ["breach", "hack", "attack", "vulnerability", "exploit", "malware",
   "phishing", "ransomware", "ddos", "intrusion", "compromise",
   "data leak", "unauthorized access", "security incident",
   "threat", "risk", "alert", "suspicious", "anomaly"]

/-- Entity record returned by extractEntities. -/
structure Entities where
  organizations : List String
  dates : List String
  numbers : List String
  emails : List String
  urls : List String
  ipAddresses : List String
  phoneNumbers : List String
deriving DecidableEq

/-- nlpService.extractEntities. -/
def extractEntities (tg : GrammarTagger) (text : String) : Entities :=
  { organizations := tg.organizations text
    dates := tg.dates text
    numbers := tg.numbers text
    emails := regexMatches emailRe text
    urls := regexMatches urlRe text
    ipAddresses := regexMatches ipRe text
    phoneNumbers := regexMatches phoneRe text }

/-- A key phrase with its frequency. -/
structure KeyPhrase where
  word : String
  frequency : ℕ
deriving DecidableEq

/-- Count word occurrences, keeping first-seen insertion order as a
JavaScript object does. -/
def bumpCount : List (String × ℕ) → String → List (String × ℕ)
  | [], w => [(w, 1)]
  | (k, n) :: rest, w =>
    if k == w then (k, n + 1) :: rest else (k, n) :: bumpCount rest w

/-- Stable insertion into a list sorted by descending count (the stable
Array.prototype.sort with comparator on frequencies). -/
def insertByCount (x : String × ℕ) : List (String × ℕ) → List (String × ℕ)
  | [] => [x]
  | y :: ys => if y.2 < x.2 then x :: y :: ys else y :: insertByCount x ys

/-- Stable descending sort by count. -/
def sortByCountDesc (l : List (String × ℕ)) : List (String × ℕ) :=
  l.foldl (fun acc x => insertByCount x acc) []

/-- nlpService.extractKeyPhrases. -/
def extractKeyPhrases (stopWords : List String) (text : String) : List KeyPhrase :=
  let words := tokenize (lowerStr text)
  let filteredWords := words.filter (fun w => 2 < w.length && !(stopWords.contains w))
  let wordFreq := filteredWords.foldl bumpCount []
  ((sortByCountDesc wordFreq).take 10).map (fun p => { word := p.1, frequency := p.2 })

/-- nlpService.calculateThreatScore. -/
def calculateThreatScore (words : List String) (sentiment : SentimentResult)
    (keywords : List String) : ℕ :=
  let score := sentiment.score.natAbs * 2
  let score := score + keywords.length * 5
  let urgencyWords : List String := ["urgent", "critical", "immediate", "emergency", "asap"]
  let urgencyCount := (words.filter (fun w => urgencyWords.contains w)).length
  let score := score + urgencyCount * 8
  let threatWords : List String := ["attack", "breach", "hack", "exploit", "malware"]
  let threatCount := (words.filter (fun w => threatWords.contains w)).length
  let score := score + threatCount * 10
  min score 100

/-- nlpService.determineThreatLevel. -/
def determineThreatLevel (score : ℕ) : String :=
  if 80 ≤ score then "critical"
  else if 60 ≤ score then "high"
  else if 30 ≤ score then "medium"
  else "low"

/-- nlpService.calculateConfidence. -/
def calculateConfidence (keywords : List String) (sentiment : SentimentResult) : ℚ :=
  let confidence : ℚ := 1/2
  let confidence :=
    if 0 < keywords.length then
      confidence + min ((keywords.length : ℚ) * (1/10)) (3/10)
    else confidence
  let confidence :=
    if 1/10 < |sentiment.comparative| then confidence + 1/5 else confidence
  min confidence 1

/-- The security sub-record of an analysis result. -/
structure SecurityInfo where
  keywords : List String
  threatScore : ℕ
  threatLevel : String
  confidence : ℚ
deriving DecidableEq

/-- Metadata of an analysis result; the analyzedAt wall-clock field is
outside the model. -/
structure AnalysisMetadata where
  wordCount : ℕ
deriving DecidableEq

/-- Result record of analyzeSecurityText. -/
structure SecurityTextAnalysis where
  sentiment : SentimentResult
  security : SecurityInfo
  entities : Entities
  keyPhrases : List KeyPhrase
  metadata : AnalysisMetadata
deriving DecidableEq

/-- The body of nlpService.analyzeSecurityText on a string input. -/
def analyzeSecurityTextStr (ext : ExternalNLP) (text : String) : SecurityTextAnalysis :=
  let words := tokenize (lowerStr text)
  let sentimentResult := sentimentAnalyze ext.afinn text
  let foundKeywords := securityKeywords.filter
    (fun keyword => strIncludes (lowerStr text) (lowerStr keyword))
  let entities := extractEntities ext.tagger text
  let threatScore := calculateThreatScore words sentimentResult foundKeywords
  let keyPhrases := extractKeyPhrases ext.stopWords text
  let threatLevel := determineThreatLevel threatScore
  { sentiment := sentimentResult
    security :=
      { keywords := foundKeywords
        threatScore := threatScore
        threatLevel := threatLevel
        confidence := calculateConfidence foundKeywords sentimentResult }
    entities := entities
    keyPhrases := keyPhrases
    metadata := { wordCount := words.length } }

/-- A JavaScript value passed to analyzeSecurityText: either a string or
a null/non-string value on which text.toLowerCase() throws. -/
inductive JSVal where
  | str (s : String) : JSVal
  | nonStr : JSVal
deriving DecidableEq

/-- nlpService.analyzeSecurityText with its try/catch wrapper: a
null/non-string input makes the body throw, which the catch rethrows as
an analysis error; string inputs produce a result. -/
def analyzeSecurityText (ext : ExternalNLP) (v : JSVal) :
    Except String SecurityTextAnalysis :=
  match v with
  | .str s => .ok (analyzeSecurityTextStr ext s)
  | .nonStr => .error "Failed to analyze security text"

/-- The fixed category taxonomy of classifySecurityText. -/
def categoryDefs : List (String × List String) :=
  [("breach", ["breach", "data leak", "unauthorized access", "compromise"]),
   ("malware", ["malware", "virus", "trojan", "ransomware", "botnet"]),
   ("phishing", ["phishing", "spoofing", "social engineering", "fake"]),
   ("ddos", ["ddos", "denial of service", "flood", "overload"]),
   ("vulnerability", ["vulnerability", "exploit", "cve", "patch", "update"]),
   ("insider", ["insider", "employee", "internal", "privilege abuse"])]

/-- Per-category score: one point per category keyword contained in the
lowercased text. -/
def categoryScore (text : String) (keywords : List String) : ℕ :=
  keywords.foldl (fun score keyword =>
    score + (if strIncludes (lowerStr text) keyword then 1 else 0)) 0

/-- Result record of classifySecurityText. -/
structure Classification where
  primaryCategory : String
  scores : List (String × ℕ)
  confidence : ℚ
deriving DecidableEq

/-- nlpService.classifySecurityText.  The reduce over the score entries
keeps the accumulator when its score is strictly larger, so ties go to
the later category; the entry list is the fixed non-empty taxonomy, so
the empty case of the match is unreachable. -/
def classifySecurityText (text : String) : Classification :=
  let scores := categoryDefs.map (fun c => (c.1, categoryScore text c.2))
  let topCategory :=
    match scores with
    | [] => ("general", 0)
    | e :: rest => rest.foldl (fun (a b : String × ℕ) => if b.2 < a.2 then a else b) e
  { primaryCategory := if 0 < topCategory.2 then topCategory.1 else "general"
    scores := scores
    confidence := (topCategory.2 : ℚ) / categoryDefs.length }

/-! ### aiService (ThreatAssessmentEngine) -/

/-- The input shape accepted by analyzeThreat; the timestamp and
metadata fields are never read on the modelled paths and are omitted. -/
structure ThreatInput where
  type : Option String
  description : Option String
  severity : Option String
  source : Option String
deriving DecidableEq

/-- Verdict record returned by analyzeThreat; the timestamp wall-clock
field is outside the model. -/
structure ThreatVerdict where
  riskScore : ℕ
  threatLevel : String
  confidence : ℚ
  recommendations : List String
  keyFindings : List String
  rawResponse : String
  analysisType : String
deriving DecidableEq

/-- aiService.fallbackAnalysis: the deterministic rule table keyed by
input severity. -/
def fallbackAnalysis (threatData : ThreatInput) (analysisType : String) : ThreatVerdict :=
  let sev := threatData.severity
  let riskScore : ℕ :=
    if sev = some "critical" then 90
    else if sev = some "high" then 75
    else if sev = some "low" then 25
    else 50
  let threatLevel : String :=
    if sev = some "critical" then "critical"
    else if sev = some "high" then "high"
    else if sev = some "low" then "low"
    else "medium"
  let recommendations : List String :=
    if sev = some "critical" then ["Immediate action required", "Escalate to security team"]
    else if sev = some "high" then ["Priority review needed"]
    else if sev = some "low" then ["Standard monitoring"]
    else ["Manual review recommended"]
  { riskScore := riskScore
    threatLevel := threatLevel
    confidence := 6/10
    recommendations := recommendations
    keyFindings := ["Automated analysis completed"]
    rawResponse := "Fallback analysis - AI service unavailable"
    analysisType := analysisType }

/-- Numeric value of a digit run. -/
def digitsToNat (ds : List Char) : ℕ :=
  ds.foldl (fun n c => n * 10 + (c.toNat - 48)) 0

/-- Value of a fractional digit run placed after the decimal point. -/
def fracVal (ds : List Char) : ℚ :=
  ds.foldr (fun c q => (((c.toNat - 48 : ℕ) : ℚ) + q) / 10) 0

/-- Skip the characters matched by a colon-or-whitespace class. -/
def skipColonWs (s : List Char) : List Char :=
  s.dropWhile (fun c => c == ':' || c.isWhitespace)

/-- Leftmost match of a case-lowered regex of shape literal, then
colon/whitespace repetition, then a captured digit run: the risk-score
pattern of parseAIResponse.  On a position where the literal occurs but
no digit follows, the scan resumes at the next position, as the regex
engine does. -/
def scanNumAfter (lit : List Char) : List Char → Option ℕ
  | [] => none
  | c :: cs =>
    if subAt lit (c :: cs) then
      let rest := skipColonWs ((c :: cs).drop lit.length)
      let ds := rest.takeWhile Char.isDigit
      if ds.isEmpty then scanNumAfter lit cs else some (digitsToNat ds)
    else scanNumAfter lit cs

/-- Leftmost match of the threat-level pattern of parseAIResponse: the
literal, colon/whitespace repetition, then the first alternative of
low, medium, high, critical that follows. -/
def scanLevelAfter (lit : List Char) : List Char → Option String
  | [] => none
  | c :: cs =>
    if subAt lit (c :: cs) then
      let rest := skipColonWs ((c :: cs).drop lit.length)
      if subAt "low".data rest then some "low"
      else if subAt "medium".data rest then some "medium"
      else if subAt "high".data rest then some "high"
      else if subAt "critical".data rest then some "critical"
      else scanLevelAfter lit cs
    else scanLevelAfter lit cs

/-- Leftmost match of the confidence pattern of parseAIResponse: the
literal, colon/whitespace repetition, then a captured decimal of shape
digits, optional point, digits. -/
def scanDecAfter (lit : List Char) : List Char → Option ℚ
  | [] => none
  | c :: cs =>
    if subAt lit (c :: cs) then
      let rest := skipColonWs ((c :: cs).drop lit.length)
      let ds := rest.takeWhile Char.isDigit
      if ds.isEmpty then scanDecAfter lit cs
      else
        let rest2 := rest.drop ds.length
        let frac : ℚ :=
          match rest2 with
          | '.' :: tail => fracVal (tail.takeWhile Char.isDigit)
          | _ => 0
        some ((digitsToNat ds : ℚ) + frac)
    else scanDecAfter lit cs

/-- Split a string on newline characters. -/
def splitLines (s : String) : List String := s.splitOn "\n"

/-- aiService.extractRecommendations: once a line containing the word
recommendation is seen, collect subsequent trimmed lines starting with a
dash. -/
def extractRecommendations (response : String) : List String :=
  let collected := ((splitLines response).foldl
    (fun (st : Bool × List String) line =>
      if strIncludes (lowerStr line) "recommendation" then (true, st.2)
      else if st.1 && line.trim.startsWith "-" then
        (st.1, st.2 ++ [(line.trim.drop 1).trim])
      else st) (false, [])).2
  if collected.isEmpty then ["Review incident details"] else collected

/-- aiService.extractKeyFindings: same collection keyed on the word
finding. -/
def extractKeyFindings (response : String) : List String :=
  let collected := ((splitLines response).foldl
    (fun (st : Bool × List String) line =>
      if strIncludes (lowerStr line) "finding" then (true, st.2)
      else if st.1 && line.trim.startsWith "-" then
        (st.1, st.2 ++ [(line.trim.drop 1).trim])
      else st) (false, [])).2
  if collected.isEmpty then ["Analysis completed"] else collected

/-- aiService.parseAIResponse: best-effort extraction of riskScore,
threatLevel and confidence from the free-text provider response, each
with its typed default.  The case-insensitive regexes are run by
lowering the response and the literals. -/
def parseAIResponse (response : String) (analysisType : String) : ThreatVerdict :=
  let low := (lowerStr response).data
  { riskScore := (scanNumAfter "risk score".data low).getD 50
    threatLevel := (scanLevelAfter "threat level".data low).getD "medium"
    confidence := (scanDecAfter "confidence".data low).getD (7/10)
    recommendations := extractRecommendations response
    keyFindings := extractKeyFindings response
    rawResponse := response
    analysisType := analysisType }

/-- aiService.analyzeThreat.  The OpenAI credential is an optional
configuration value; the provider exchange is modelled by its outcome,
either the response text or a thrown error.  With no credential the
provider is never consulted; a provider error routes to the fallback. -/
def analyzeThreat (apiKey : Option String) (provider : Except String String)
    (threatData : ThreatInput) (analysisType : String) : ThreatVerdict :=
  match apiKey with
  | none => fallbackAnalysis threatData analysisType
  | some _ =>
    match provider with
    | .ok content => parseAIResponse content analysisType
    | .error _ => fallbackAnalysis threatData analysisType

/-! ### breach-lookup route (BreachRiskCalculator) -/

/-- The fields of a breach record read by calculateRiskScore. -/
structure BreachRecord where
  pwnCount : ℕ
  isVerified : Bool
  isSensitive : Bool
  dataClasses : List String
deriving DecidableEq

/-- A paste record; only its presence is counted. -/
structure PasteRecord where
  id : String
deriving DecidableEq

/-- The fixed sensitive data-class categories. -/
def sensitiveTypes : List String :=
  ["passwords", "credit cards", "financial", "social security"]

/-- Per-breach additions of calculateRiskScore: sensitivity,
verification, size bucket and sensitive data classes. -/
def breachBonus (breach : BreachRecord) : ℚ :=
  (if breach.isSensitive then 2 else 0)
  + (if breach.isVerified then 1 else 0)
  + (if 100000000 < breach.pwnCount then 3
     else if 10000000 < breach.pwnCount then 2
     else if 1000000 < breach.pwnCount then 1
     else 0)
  + (if (breach.dataClasses.map lowerStr).any
        (fun dc => sensitiveTypes.any (fun st => strIncludes dc st)) then 2 else 0)

/-- breach-lookup calculateRiskScore: base per-record weights plus the
per-breach additions, rounded and capped at 10. -/
def calculateRiskScore (breaches : List BreachRecord) (pastes : List PasteRecord) : ℤ :=
  let score : ℚ := (breaches.length : ℚ) * (3/2) + (pastes.length : ℚ) * (1/2)
  let score := breaches.foldl (fun s b => s + breachBonus b) score
  min (jsRound score) 10

/-- breach-lookup getRiskLevel. -/
def getRiskLevel (score : ℤ) : String :=
  if 8 ≤ score then "critical"
  else if 6 ≤ score then "high"
  else if 4 ≤ score then "medium"
  else "low"

/-! ### batch-analyze route -/

/-- One indexed entry of a batch result. -/
structure BatchItem (α : Type) where
  index : ℕ
  success : Bool
  analysis : Option α
  errorMessage : Option String
  textLength : ℕ

/-- The aggregate counters of a batch result. -/
structure BatchSummary where
  total : ℕ
  successful : ℕ
  failed : ℕ
deriving DecidableEq

/-- A batch result: indexed entries plus summary. -/
structure BatchResult (α : Type) where
  results : List (BatchItem α)
  summary : BatchSummary

/-- The per-item try/catch body of the batch-analyze route: a throwing
analysis yields a failure entry for that index only. -/
def analyzeOne {α : Type} (analyze : String → Except String α)
    (idx : ℕ) (text : String) : BatchItem α :=
  match analyze text with
  | .ok a =>
    { index := idx, success := true, analysis := some a
      errorMessage := none, textLength := text.length }
  | .error _ =>
    { index := idx, success := false, analysis := none
      errorMessage := some "Failed to analyze text", textLength := text.length }

/-- The batch-analyze route body after schema validation: map every text
with its position, then count successes and failures. -/
def batchAnalyze {α : Type} (analyze : String → Except String α)
    (texts : List String) : BatchResult α :=
  let results := texts.enum.map (fun p => analyzeOne analyze p.1 p.2)
  let successCount := (results.filter (fun r => r.success)).length
  let failureCount := results.length - successCount
  { results := results
    summary :=
      { total := texts.length, successful := successCount, failed := failureCount } }

/-! ### otxService (ThreatIntelAggregator)

Calendar dates are embedded as integer day numbers; the current date is
the parameter now, and a window of n days reaches back to now - n.
Math.random is modelled as an indexed stream of rationals in [0,1),
consumed at distinct indices in call order. -/

/-- A normalized pulse: the indicator count and tag list, plus the
optional modified/created/updated day stamps. -/
structure Pulse where
  indicators : ℕ
  tags : List String
  modified : Option ℤ
  created : Option ℤ
  updated : Option ℤ
deriving DecidableEq

/-- otxService.tagCategory: first matching tag-substring rule in fixed
priority order. -/
def tagCategory (tags : List String) : String :=
  let lower := tags.map lowerStr
  if lower.any (fun t => strIncludes t "phishing" || strIncludes t "credential") then
    "Phishing Attempts"
  else if lower.any (fun t => strIncludes t "ransomware" || strIncludes t "malware"
      || strIncludes t "botnet") then "Malware Detections"
  else if lower.any (fun t => strIncludes t "bruteforce" || strIncludes t "credential"
      || strIncludes t "unauthorized") then "Unauthorized Access"
  else if lower.any (fun t => strIncludes t "exfiltr" || strIncludes t "leak") then
    "Data Exfiltration"
  else if lower.any (fun t => strIncludes t "ddos" || strIncludes t "dos") then
    "DDoS Attacks"
  else "Other"

/-- otxService.severityFromPulse: indicator-count buckets adjusted by
tag content, re-bucketed to the four-level scale. -/
def severityFromPulse (p : Pulse) : String :=
  let count := p.indicators
  let tags := p.tags.map lowerStr
  let score : ℕ := if 30 ≤ count then 10 else if 15 ≤ count then 7 else if 7 ≤ count then 4 else 2
  let score :=
    if tags.any (fun t => strIncludes t "ransomware" || strIncludes t "apt") then score + 4
    else if tags.any (fun t => strIncludes t "malware" || strIncludes t "ddos"
        || strIncludes t "botnet") then score + 3
    else if tags.any (fun t => strIncludes t "phishing") then score + 2
    else score
  if 10 ≤ score then "critical" else if 7 ≤ score then "high"
  else if 4 ≤ score then "medium" else "low"

/-- One entry of the threat-trend array. -/
structure TrendEntry where
  date : ℤ
  threats : ℕ
  resolved : ℕ
deriving DecidableEq

/-- One entry of the top-threats list. -/
structure TopThreat where
  name : String
  count : ℕ
  change : ℤ
deriving DecidableEq

/-- The four-level risk distribution. -/
structure RiskDistribution where
  critical : ℕ
  high : ℕ
  medium : ℕ
  low : ℕ
deriving DecidableEq

/-- Overview metrics; averageResponseTime keeps the numeric value whose
string formatting is outside the model. -/
structure OverviewMetrics where
  totalIncidents : ℕ
  averageResponseTime : ℚ
  resolutionRate : ℕ
  criticalThreats : ℕ
deriving DecidableEq

/-- The overview record; the per-attempt diagnostics list is network
metadata outside the model. -/
structure IntelOverview where
  metrics : OverviewMetrics
  threatTrends : List TrendEntry
  topThreats : List TopThreat
  riskDistribution : RiskDistribution
  rawPulses : ℕ
  rawIndicators : ℕ
  usedApiKey : Bool
  usingFallback : Bool
deriving DecidableEq

/-- p.modified or p.created or p.updated, first present wins. -/
def pulseWhen (p : Pulse) : Option ℤ :=
  match p.modified with
  | some w => some w
  | none =>
    match p.created with
    | some w => some w
    | none => p.updated

/-- The period filter of getOverview: keep pulses stamped within the
window, and keep unstamped pulses. -/
def inWindow (now : ℤ) (days : ℕ) (p : Pulse) : Bool :=
  match pulseWhen p with
  | some w => now - (days : ℤ) ≤ w
  | none => true

/-- The date key a pulse is tallied under: modified or created, with the
current date as default. -/
def pulseDateKey (now : ℤ) (p : Pulse) : ℤ :=
  match p.modified with
  | some w => w
  | none =>
    match p.created with
    | some w => w
    | none => now

/-- Per-pulse threat increment:
Math.max(1, Math.round(indicators * 0.5) || 1). -/
def threatInc (indicators : ℕ) : ℕ :=
  let r := (indicators + 1) / 2
  max 1 (if r = 0 then 1 else r)

/-- Math.round(t * 0.7) for a natural t. -/
def round70 (t : ℕ) : ℕ := (7 * t + 5) / 10

/-- The per-date tally of getOverview: for each pulse in order, add its
threat increment to its date and then add round70 of the updated running
threat count to the same date.  The Map defaulting to zeroes is a total
function on dates. -/
def tallyTrends (now : ℤ) (recent : List Pulse) : ℤ → ℕ × ℕ :=
  recent.foldl (fun m p =>
    let day := pulseDateKey now p
    let prev := m day
    let th := prev.1 + threatInc p.indicators
    let rs := prev.2 + round70 th
    fun d => if d = day then (th, rs) else m d) (fun _ => (0, 0))

/-- The trend array of the real-data path: the last n days ending today,
missing dates filled with zeroes. -/
def buildTrend (days : ℕ) (now : ℤ) (m : ℤ → ℕ × ℕ) : List TrendEntry :=
  (List.range days).map (fun j =>
    let d : ℤ := now - ((days - 1 - j : ℕ) : ℤ)
    { date := d, threats := (m d).1, resolved := (m d).2 })

/-- Top-five categories by pulse count with the alternating
plus-12/minus-8 change placeholder. -/
def topFromCats (cats : List (String × ℕ)) : List TopThreat :=
  (((sortByCountDesc cats).take 5).enum).map (fun p =>
    { name := p.2.1, count := p.2.2, change := if p.1 % 2 = 0 then 12 else -8 })

/-- The five fixed fallback categories. -/
def fallbackCategories : List String :=
  ["Phishing Attempts", "Malware Detections", "Unauthorized Access",
   "Data Exfiltration", "DDoS Attacks"]

/-- The dashboard-shaped part of the fallback data. -/
structure FallbackData where
  metrics : OverviewMetrics
  threatTrends : List TrendEntry
  topThreats : List TopThreat
  riskDistribution : RiskDistribution

/-- otxService.generateFallbackData: synthetic data with deterministic
shape and randomized magnitudes.  The random stream r is consumed at
distinct indices per call site. -/
def generateFallbackData (r : ℕ → ℚ) (days : ℕ) (now : ℤ) : FallbackData :=
  let threatTrends := (List.range days).map (fun j =>
    let i : ℕ := days - 1 - j
    let baseThreats : ℕ := (jsFloor (r (2 * j) * 40)).toNat + 20
    ({ date := now - (i : ℤ)
       threats := baseThreats
       resolved := (jsFloor ((baseThreats : ℚ) * (6/10 + r (2 * j + 1) * (3/10)))).toNat }
      : TrendEntry))
  let topThreats := ((fallbackCategories.enum).map (fun p =>
    ({ name := p.2
       count := (jsFloor (r (2 * days + 2 * p.1) * 200)).toNat + 50 + (100 - p.1 * 20)
       change := jsFloor (r (2 * days + 2 * p.1 + 1) * 30) - 15 } : TopThreat))).take 5
  let b := 2 * days + 10
  let riskDistribution : RiskDistribution :=
    { critical := (jsFloor (r b * 25)).toNat + 5
      high := (jsFloor (r (b + 1) * 80)).toNat + 40
      medium := (jsFloor (r (b + 2) * 150)).toNat + 100
      low := (jsFloor (r (b + 3) * 100)).toNat + 50 }
  let totalIncidents := riskDistribution.critical + riskDistribution.high
    + riskDistribution.medium + riskDistribution.low
  { metrics :=
      { totalIncidents := totalIncidents
        averageResponseTime := 5/2 + r (b + 4) * 3
        resolutionRate := (jsFloor (75 + r (b + 5) * 20)).toNat
        criticalThreats := riskDistribution.critical }
    threatTrends := threatTrends
    topThreats := topThreats
    riskDistribution := riskDistribution }

/-- otxService.getOverview.  The fetched pulse list stands for the
outcome of the candidate-endpoint chain: failed endpoints contribute
nothing, so all endpoints failing is the empty list.  An empty filtered
set routes to the fallback data with usingFallback set; otherwise the
real-data aggregation runs. -/
def getOverview (days : ℕ) (now : ℤ) (usedKey : Bool) (r : ℕ → ℚ)
    (pulses : List Pulse) : IntelOverview :=
  let recent := pulses.filter (inWindow now days)
  if recent.isEmpty then
    let fb := generateFallbackData r days now
    { metrics := fb.metrics
      threatTrends := fb.threatTrends
      topThreats := fb.topThreats
      riskDistribution := fb.riskDistribution
      rawPulses := 0, rawIndicators := 0
      usedApiKey := usedKey, usingFallback := true }
  else
    let indicatorsTotal := (recent.map (fun p => p.indicators)).sum
    let crit := (recent.filter (fun p => severityFromPulse p == "critical")).length
    let hi := (recent.filter (fun p => severityFromPulse p == "high")).length
    let med := (recent.filter (fun p => severityFromPulse p == "medium")).length
    let lo := (recent.filter (fun p => severityFromPulse p == "low")).length
    let cats := recent.foldl (fun m p => bumpCount m (tagCategory p.tags)) []
    let trend := buildTrend days now (tallyTrends now recent)
    { metrics :=
        { totalIncidents := if indicatorsTotal = 0 then recent.length else indicatorsTotal
          averageResponseTime := 7/2 + ((recent.length % 10 : ℕ) : ℚ) / 10
          resolutionRate := min 95 (70 + recent.length % 25)
          criticalThreats := crit }
      threatTrends := trend
      topThreats := topFromCats cats
      riskDistribution := { critical := crit, high := hi, medium := med, low := lo }
      rawPulses := recent.length, rawIndicators := indicatorsTotal
      usedApiKey := usedKey, usingFallback := false }

/-! ### Claim-side reference definitions

These state formulas exactly as the spec words them, to be compared with
the embedded code. -/

/-- The fixed score-to-level mapping the spec states in section 4.2 step
4: at least 80 critical, at least 60 high, at least 30 medium, else
low. -/
def specScoreLevel (score : ℕ) : String :=
  if 80 ≤ score then "critical"
  else if 60 ≤ score then "high"
  else if 30 ≤ score then "medium"
  else "low"

/-- The textual threat-score formula as the spec words it in section 4.2
step 3. -/
def specThreatScore (sentimentScore : ℤ) (keywordHits urgencyCount threatCount : ℕ) : ℕ :=
  min 100 (2 * sentimentScore.natAbs + 5 * keywordHits + 8 * urgencyCount + 10 * threatCount)

/-- The urgency word set of the spec formula. -/
def specUrgencyWords : List String := ["urgent", "critical", "immediate", "emergency", "asap"]

/-- The threat word set of the spec formula. -/
def specThreatWords : List String := ["attack", "breach", "hack", "exploit", "malware"]

/-- A concrete grammar tagger extracting nothing, used to instantiate
witnesses. -/
def trivialTagger : GrammarTagger :=
  { organizations := fun _ => [], dates := fun _ => [], numbers := fun _ => []
    organizationsOnEmpty := rfl, datesOnEmpty := rfl, numbersOnEmpty := rfl }

/-- A concrete external-capability bundle for witnesses. -/
def trivialNLP : ExternalNLP :=
  { afinn := fun _ => 0, stopWords := [], tagger := trivialTagger }

/-! ### Bridging lemmas -/

/-- jsFloor agrees with the floor of the order structure on ℚ. -/
theorem jsFloor_eq (q : ℚ) : jsFloor q = ⌊q⌋ := by
  rw [jsFloor, Rat.floor_def', Rat.floor_def]

/-- jsRound agrees with half-up rounding on the order structure. -/
theorem jsRound_eq (q : ℚ) : jsRound q = ⌊q + 1/2⌋ := by
  rw [jsRound, Rat.floor_def', Rat.floor_def]

/-! ### C1: verdict consistency -/

/-- C1 (amended): every ThreatVerdict produced by the fallback path of
the assessment engine has riskScore and threatLevel mutually consistent
under the fixed score-to-level mapping, and its confidence lies in
[0,1].  The provider-parse path does not guarantee this (see the
counterexample below). -/
theorem fallback_verdict_consistent (threatData : ThreatInput) (analysisType : String) :
    (fallbackAnalysis threatData analysisType).threatLevel
      = specScoreLevel (fallbackAnalysis threatData analysisType).riskScore
    ∧ 0 ≤ (fallbackAnalysis threatData analysisType).confidence
    ∧ (fallbackAnalysis threatData analysisType).confidence ≤ 1 := by
  refine ⟨?_, by simp [fallbackAnalysis]; norm_num, by simp [fallbackAnalysis]; norm_num⟩
  by_cases h1 : threatData.severity = some "critical"
  · simp [fallbackAnalysis, specScoreLevel, h1]
  · by_cases h2 : threatData.severity = some "high"
    · simp [fallbackAnalysis, specScoreLevel, h1, h2]
    · by_cases h3 : threatData.severity = some "low"
      · simp [fallbackAnalysis, specScoreLevel, h1, h2, h3]
      · simp [fallbackAnalysis, specScoreLevel, h1, h2, h3]

/-- C1 fails as stated on the provider-parse path: this provider
response parses to riskScore 90 with threatLevel low, which the fixed
mapping sends to critical, and to a confidence of 5, outside [0,1]. -/
theorem parse_path_inconsistent_verdict :
    (analyzeThreat (some "key") (.ok "risk score 90 threat level low confidence 5")
        { type := none, description := none, severity := some "low", source := none }
        "threatAnalysis").riskScore = 90
    ∧ (analyzeThreat (some "key") (.ok "risk score 90 threat level low confidence 5")
        { type := none, description := none, severity := some "low", source := none }
        "threatAnalysis").threatLevel = "low"
    ∧ specScoreLevel 90 = "critical"
    ∧ ("low" : String) ≠ "critical"
    ∧ ¬ ((analyzeThreat (some "key") (.ok "risk score 90 threat level low confidence 5")
        { type := none, description := none, severity := some "low", source := none }
        "threatAnalysis").confidence ≤ 1) := by
  refine ⟨by decide, by decide, by decide, by decide, ?_⟩
  have h : (analyzeThreat (some "key") (.ok "risk score 90 threat level low confidence 5")
      { type := none, description := none, severity := some "low", source := none }
      "threatAnalysis").confidence = 5 := by with_unfolding_all rfl
  rw [h]; norm_num

/-! ### C2: the no-credential fallback table -/

/-- C2: with no provider credential configured, analyzeThreat returns
the deterministic fallback verdict keyed by severity, whatever the
provider outcome would have been: critical gives 90/critical, high
gives 75/high with confidence 0.6, low gives 25/low, anything else
gives 50/medium.  The path is a total function, so it never throws. -/
theorem analyzeThreat_no_key (provider : Except String String)
    (threatData : ThreatInput) (analysisType : String) :
    analyzeThreat none provider threatData analysisType
      = fallbackAnalysis threatData analysisType
    ∧ (threatData.severity = some "critical" →
        (analyzeThreat none provider threatData analysisType).riskScore = 90
        ∧ (analyzeThreat none provider threatData analysisType).threatLevel = "critical")
    ∧ (threatData.severity = some "high" →
        (analyzeThreat none provider threatData analysisType).riskScore = 75
        ∧ (analyzeThreat none provider threatData analysisType).threatLevel = "high"
        ∧ (analyzeThreat none provider threatData analysisType).confidence = 6/10)
    ∧ (threatData.severity = some "low" →
        (analyzeThreat none provider threatData analysisType).riskScore = 25
        ∧ (analyzeThreat none provider threatData analysisType).threatLevel = "low")
    ∧ (threatData.severity ≠ some "critical" → threatData.severity ≠ some "high" →
        threatData.severity ≠ some "low" →
        (analyzeThreat none provider threatData analysisType).riskScore = 50
        ∧ (analyzeThreat none provider threatData analysisType).threatLevel = "medium") := by
  refine ⟨rfl, ?_, ?_, ?_, ?_⟩
  · intro h; constructor <;> simp [analyzeThreat, fallbackAnalysis, h]
  · intro h; refine ⟨?_, ?_, ?_⟩ <;> simp [analyzeThreat, fallbackAnalysis, h]
  · intro h; constructor <;> simp [analyzeThreat, fallbackAnalysis, h]
  · intro h1 h2 h3; constructor <;> simp [analyzeThreat, fallbackAnalysis, h1, h2, h3]

/-- Witness for C2 at a concrete critical-severity input. -/
theorem analyzeThreat_no_key_witness :
    ({ type := none, description := none, severity := some "critical", source := none }
        : ThreatInput).severity = some "critical"
    ∧ (analyzeThreat none (.error "network down")
        { type := none, description := none, severity := some "critical", source := none }
        "threatAnalysis").riskScore = 90 :=
  ⟨rfl, ((analyzeThreat_no_key (.error "network down")
    { type := none, description := none, severity := some "critical", source := none }
    "threatAnalysis").2.1 rfl).1⟩

/-! ### C3: the textual threat-score formula -/

/-- C3: for every non-empty text, the threat score computed by
analyzeSecurityText is exactly the spec formula over the sentiment
score, the lexicon hits, and the exact-token urgency and threat word
counts; it lies within [0,100], and the threat level is derived from it
by the fixed breakpoints. -/
theorem threatScore_formula (ext : ExternalNLP) (text : String) (htext : text ≠ "") :
    (analyzeSecurityTextStr ext text).security.threatScore
      = specThreatScore (sentimentAnalyze ext.afinn text).score
          (securityKeywords.filter
            (fun keyword => strIncludes (lowerStr text) (lowerStr keyword))).length
          ((tokenize (lowerStr text)).filter (fun w => specUrgencyWords.contains w)).length
          ((tokenize (lowerStr text)).filter (fun w => specThreatWords.contains w)).length
    ∧ (analyzeSecurityTextStr ext text).security.threatScore ≤ 100
    ∧ (analyzeSecurityTextStr ext text).security.threatLevel
      = specScoreLevel (analyzeSecurityTextStr ext text).security.threatScore := by
  refine ⟨?_, ?_, ?_⟩
  · simp only [analyzeSecurityTextStr, calculateThreatScore, specThreatScore,
      specUrgencyWords, specThreatWords]
    omega
  · simp only [analyzeSecurityTextStr, calculateThreatScore]
    omega
  · simp only [analyzeSecurityTextStr, calculateThreatScore, determineThreatLevel,
      specScoreLevel]

/-- Witness for C3 at a concrete non-empty text. -/
theorem threatScore_formula_witness :
    ("attack" : String) ≠ ""
    ∧ (analyzeSecurityTextStr trivialNLP "attack").security.threatScore ≤ 100 :=
  ⟨by decide, (threatScore_formula trivialNLP "attack" (by decide)).2.1⟩

/-! ### C9: the empty string and the error condition -/

/-- C9: on the empty string, analyzeSecurityText succeeds with threat
score 0, threat level low, and empty keyword, entity and key-phrase
lists; it returns an analysis error exactly on the null/non-string
inputs. -/
theorem analyze_empty_input (ext : ExternalNLP) :
    analyzeSecurityText ext (.str "") = .ok (analyzeSecurityTextStr ext "")
    ∧ (analyzeSecurityTextStr ext "").security.threatScore = 0
    ∧ (analyzeSecurityTextStr ext "").security.threatLevel = "low"
    ∧ (analyzeSecurityTextStr ext "").security.keywords = []
    ∧ (analyzeSecurityTextStr ext "").keyPhrases = []
    ∧ (analyzeSecurityTextStr ext "").entities
      = { organizations := [], dates := [], numbers := [], emails := [], urls := [],
          ipAddresses := [], phoneNumbers := [] }
    ∧ (∀ v, (∃ e, analyzeSecurityText ext v = .error e) ↔ v = JSVal.nonStr) := by
  refine ⟨rfl, rfl, rfl, rfl, rfl, ?_, ?_⟩
  · simp only [analyzeSecurityTextStr, extractEntities, Entities.mk.injEq]
    exact ⟨ext.tagger.organizationsOnEmpty, ext.tagger.datesOnEmpty,
      ext.tagger.numbersOnEmpty, rfl, rfl, rfl, rfl⟩
  · intro v
    cases v with
    | str s => simp [analyzeSecurityText]
    | nonStr => simp [analyzeSecurityText]

/-! ### C10: confidence bounds -/

/-- Closed form of calculateConfidence: the two bonuses are added to
the base 0.5, with the keyword bonus written as a single min as the
claim does (zero keywords contribute a zero min). -/
theorem calculateConfidence_closed (keywords : List String) (s : SentimentResult) :
    calculateConfidence keywords s
      = 1/2 + min (3/10 : ℚ) ((keywords.length : ℚ) * (1/10))
        + (if 1/10 < |s.comparative| then (1/5 : ℚ) else 0) := by
  unfold calculateConfidence
  dsimp only
  have hkq : (0 : ℚ) ≤ (keywords.length : ℚ) := by positivity
  have hm3 : min ((keywords.length : ℚ) * (1/10)) (3/10) ≤ 3/10 := min_le_right _ _
  by_cases hc : 1/10 < |s.comparative|
  · rw [if_pos hc]
    by_cases hk : 0 < keywords.length
    · rw [if_pos hk, min_eq_left (by linarith),
        min_comm ((keywords.length : ℚ) * (1/10)) (3/10), if_pos hc]
    · have h0 : keywords.length = 0 := by omega
      rw [if_neg hk, h0, if_pos hc, min_eq_left (by norm_num)]
      norm_num
  · rw [if_neg hc]
    by_cases hk : 0 < keywords.length
    · rw [if_pos hk, min_eq_left (by linarith),
        min_comm ((keywords.length : ℚ) * (1/10)) (3/10), if_neg hc, add_zero]
    · have h0 : keywords.length = 0 := by omega
      rw [if_neg hk, h0, if_neg hc, min_eq_left (by norm_num)]
      norm_num

/-- C10: the confidence of the security result equals
0.5 + min(0.3, 0.1 times the keyword hits) plus 0.2 for a strong
comparative, always lies in [0.5, 1], and reaches 1 exactly when both
bonuses are maximal. -/
theorem confidence_bounds (ext : ExternalNLP) (text : String) :
    (analyzeSecurityTextStr ext text).security.confidence
      = 1/2 + min (3/10 : ℚ)
          (((securityKeywords.filter
              (fun keyword => strIncludes (lowerStr text) (lowerStr keyword))).length : ℚ)
            * (1/10))
        + (if 1/10 < |(sentimentAnalyze ext.afinn text).comparative| then (1/5 : ℚ) else 0)
    ∧ 1/2 ≤ (analyzeSecurityTextStr ext text).security.confidence
    ∧ (analyzeSecurityTextStr ext text).security.confidence ≤ 1
    ∧ ((analyzeSecurityTextStr ext text).security.confidence = 1
        ↔ 3 ≤ (securityKeywords.filter
              (fun keyword => strIncludes (lowerStr text) (lowerStr keyword))).length
          ∧ 1/10 < |(sentimentAnalyze ext.afinn text).comparative|) := by
  have hconf : (analyzeSecurityTextStr ext text).security.confidence
      = calculateConfidence
          (securityKeywords.filter
            (fun keyword => strIncludes (lowerStr text) (lowerStr keyword)))
          (sentimentAnalyze ext.afinn text) := rfl
  set kws := securityKeywords.filter
    (fun keyword => strIncludes (lowerStr text) (lowerStr keyword)) with hkws
  set s := sentimentAnalyze ext.afinn text with hs
  have hcl := calculateConfidence_closed kws s
  have hkq : (0 : ℚ) ≤ (kws.length : ℚ) := by positivity
  have hm0 : (0 : ℚ) ≤ min (3/10 : ℚ) ((kws.length : ℚ) * (1/10)) :=
    le_min (by norm_num) (by positivity)
  have hm3 : min (3/10 : ℚ) ((kws.length : ℚ) * (1/10)) ≤ 3/10 := min_le_left _ _
  have hb0 : (0 : ℚ) ≤ (if 1/10 < |s.comparative| then (1/5 : ℚ) else 0) := by
    split <;> norm_num
  have hb1 : (if 1/10 < |s.comparative| then (1/5 : ℚ) else 0) ≤ 1/5 := by
    split <;> norm_num
  refine ⟨hconf.trans hcl, ?_, ?_, ?_⟩
  · rw [hconf, hcl]; linarith
  · rw [hconf, hcl]; linarith
  · rw [hconf, hcl]
    by_cases hk3 : 3 ≤ kws.length
    · have hq3 : (3 : ℚ) ≤ (kws.length : ℚ) := by exact_mod_cast hk3
      have hmeq : min (3/10 : ℚ) ((kws.length : ℚ) * (1/10)) = 3/10 :=
        min_eq_left (by linarith)
      by_cases hc : 1/10 < |s.comparative|
      · rw [hmeq, if_pos hc]
        constructor
        · intro _; exact ⟨hk3, hc⟩
        · intro _; norm_num
      · rw [hmeq, if_neg hc]
        constructor
        · intro h; exfalso; norm_num at h
        · rintro ⟨_, hcc⟩; exact absurd hcc hc
    · have hklt : kws.length ≤ 2 := by omega
      have hq2 : (kws.length : ℚ) ≤ 2 := by exact_mod_cast hklt
      have hmeq : min (3/10 : ℚ) ((kws.length : ℚ) * (1/10))
          = (kws.length : ℚ) * (1/10) := min_eq_right (by linarith)
      constructor
      · intro h
        rw [hmeq] at h
        exfalso
        have : (1:ℚ)/2 + (kws.length : ℚ) * (1/10)
            + (if 1/10 < |s.comparative| then (1/5 : ℚ) else 0) ≤ 9/10 := by linarith
        linarith [this.trans_eq' h.symm]
      · rintro ⟨hk3c, _⟩; exact absurd hk3c hk3

/-! ### C6: classification -/

/-- The argmax reduce of classifySecurityText returns one of its
entries. -/
theorem foldTop_mem (e : String × ℕ) (l : List (String × ℕ)) :
    l.foldl (fun (a b : String × ℕ) => if b.2 < a.2 then a else b) e ∈ e :: l := by
  induction l generalizing e with
  | nil => simp
  | cons p ps ih =>
    simp only [List.foldl_cons]
    by_cases hc : p.2 < e.2
    · rw [if_pos hc]
      rcases List.mem_cons.1 (ih e) with h1 | h1
      · rw [h1]; exact List.mem_cons_self _ _
      · exact List.mem_cons_of_mem _ (List.mem_cons_of_mem _ h1)
    · rw [if_neg hc]
      rcases List.mem_cons.1 (ih p) with h1 | h1
      · rw [h1]; exact List.mem_cons_of_mem _ (List.mem_cons_self _ _)
      · exact List.mem_cons_of_mem _ (List.mem_cons_of_mem _ h1)

/-- The score of the argmax reduce is the running maximum of the
scores. -/
theorem foldTop_snd (e : String × ℕ) (l : List (String × ℕ)) :
    (l.foldl (fun (a b : String × ℕ) => if b.2 < a.2 then a else b) e).2
      = l.foldl (fun (m : ℕ) (b : String × ℕ) => max m b.2) e.2 := by
  induction l generalizing e with
  | nil => rfl
  | cons p ps ih =>
    simp only [List.foldl_cons]
    rw [ih]
    congr 1
    split <;> omega

set_option maxHeartbeats 1600000 in
/-- C6: classifySecurityText (a total function, so it never throws)
returns a primaryCategory among the six fixed categories plus general,
returns general exactly when every category score is zero, and returns
as confidence the winning (maximal) category score divided by the
category count 6. -/
theorem classify_category_spec (text : String) :
    (classifySecurityText text).primaryCategory
      ∈ ["breach", "malware", "phishing", "ddos", "vulnerability", "insider", "general"]
    ∧ ((classifySecurityText text).primaryCategory = "general"
        ↔ ∀ c ∈ categoryDefs, categoryScore text c.2 = 0)
    ∧ (classifySecurityText text).confidence
      = ((max (categoryScore text ["breach", "data leak", "unauthorized access", "compromise"])
          (max (categoryScore text ["malware", "virus", "trojan", "ransomware", "botnet"])
          (max (categoryScore text ["phishing", "spoofing", "social engineering", "fake"])
          (max (categoryScore text ["ddos", "denial of service", "flood", "overload"])
          (max (categoryScore text ["vulnerability", "exploit", "cve", "patch", "update"])
               (categoryScore text ["insider", "employee", "internal", "privilege abuse"]))))) : ℚ))
        / 6 := by
  simp only [classifySecurityText, categoryDefs, List.map_cons, List.map_nil,
    List.length_cons, List.length_nil,
    List.forall_mem_cons, List.forall_mem_nil, and_true, Nat.cast_ofNat]
  generalize categoryScore text ["breach", "data leak", "unauthorized access", "compromise"] = s1
  generalize categoryScore text ["malware", "virus", "trojan", "ransomware", "botnet"] = s2
  generalize categoryScore text ["phishing", "spoofing", "social engineering", "fake"] = s3
  generalize categoryScore text ["ddos", "denial of service", "flood", "overload"] = s4
  generalize categoryScore text ["vulnerability", "exploit", "cve", "patch", "update"] = s5
  generalize categoryScore text ["insider", "employee", "internal", "privilege abuse"] = s6
  have hmem := foldTop_mem ("breach", s1)
    [("malware", s2), ("phishing", s3), ("ddos", s4), ("vulnerability", s5), ("insider", s6)]
  have hsnd := foldTop_snd ("breach", s1)
    [("malware", s2), ("phishing", s3), ("ddos", s4), ("vulnerability", s5), ("insider", s6)]
  conv at hsnd => rhs; simp only [List.foldl_cons, List.foldl_nil]
  simp only [List.mem_cons, List.not_mem_nil, or_false] at hmem
  refine ⟨?_, ?_, ?_⟩
  · by_cases h : 0 < (List.foldl (fun (a b : String × ℕ) => if b.2 < a.2 then a else b)
        ("breach", s1)
        [("malware", s2), ("phishing", s3), ("ddos", s4), ("vulnerability", s5), ("insider", s6)]).2
    · rw [if_pos h]
      rcases hmem with h1 | h1 | h1 | h1 | h1 | h1 <;> rw [h1] <;> simp
    · rw [if_neg h]
      simp
  · by_cases h : 0 < (List.foldl (fun (a b : String × ℕ) => if b.2 < a.2 then a else b)
        ("breach", s1)
        [("malware", s2), ("phishing", s3), ("ddos", s4), ("vulnerability", s5), ("insider", s6)]).2
    · rw [if_pos h]
      constructor
      · intro hgen
        exfalso
        rcases hmem with h1 | h1 | h1 | h1 | h1 | h1 <;> rw [h1] at hgen <;> simp at hgen
      · rintro ⟨e1, e2, e3, e4, e5, e6⟩
        exfalso
        rw [hsnd] at h
        omega
    · rw [if_neg h]
      rw [hsnd] at h
      constructor
      · intro _
        exact ⟨by omega, by omega, by omega, by omega, by omega, by omega, by simp⟩
      · intro _
        rfl
  · rw [hsnd]
    clear hmem
    have hmax : max (max (max (max (max s1 s2) s3) s4) s5) s6
        = max s1 (max s2 (max s3 (max s4 (max s5 s6)))) := by omega
    rw [hmax]
    simp only [Nat.cast_max]
    norm_num

/-! ### C8: the breach risk calculator -/

/-- Folding the per-breach additions equals adding their sum. -/
theorem foldl_add_bonus (init : ℚ) (l : List BreachRecord) :
    l.foldl (fun s b => s + breachBonus b) init = init + (l.map breachBonus).sum := by
  induction l generalizing init with
  | nil => simp
  | cons b bs ih =>
    simp only [List.foldl_cons, List.map_cons, List.sum_cons, ih]
    ring

/-- Every per-breach addition is nonnegative. -/
theorem breachBonus_nonneg (b : BreachRecord) : 0 ≤ breachBonus b := by
  unfold breachBonus
  split_ifs <;> norm_num

/-- The sum of per-breach additions is nonnegative. -/
theorem bonus_sum_nonneg (l : List BreachRecord) : 0 ≤ (l.map breachBonus).sum := by
  apply List.sum_nonneg
  intro x hx
  obtain ⟨b, _, rfl⟩ := List.mem_map.1 hx
  exact breachBonus_nonneg b

/-- C8: calculateRiskScore of empty inputs is 0 and maps to low risk;
every score is an integer in [0,10]; appending further breach records
(in particular sensitive, verified or large ones) never decreases the
score; and getRiskLevel realizes exactly the fixed thresholds. -/
theorem calculateRiskScore_spec :
    calculateRiskScore [] [] = 0
    ∧ getRiskLevel 0 = "low"
    ∧ (∀ (bs : List BreachRecord) (ps : List PasteRecord),
        0 ≤ calculateRiskScore bs ps ∧ calculateRiskScore bs ps ≤ 10)
    ∧ (∀ (bs bs2 : List BreachRecord) (ps : List PasteRecord),
        calculateRiskScore bs ps ≤ calculateRiskScore (bs ++ bs2) ps)
    ∧ (∀ s : ℤ,
        (getRiskLevel s = "critical" ↔ 8 ≤ s)
        ∧ (getRiskLevel s = "high" ↔ 6 ≤ s ∧ s < 8)
        ∧ (getRiskLevel s = "medium" ↔ 4 ≤ s ∧ s < 6)
        ∧ (getRiskLevel s = "low" ↔ s < 4)) := by
  refine ⟨?_, rfl, ?_, ?_, ?_⟩
  · simp only [calculateRiskScore, List.length_nil, List.foldl_nil, Nat.cast_zero,
      jsRound_eq]
    norm_num
  · intro bs ps
    constructor
    · simp only [calculateRiskScore, foldl_add_bonus, jsRound_eq]
      have h1 : (0:ℚ) ≤ (bs.length : ℚ) * (3/2) + (ps.length : ℚ) * (1/2)
          + (bs.map breachBonus).sum := by
        have := bonus_sum_nonneg bs
        positivity
      refine le_min ?_ (by norm_num)
      rw [Int.le_floor]
      push_cast
      linarith
    · exact min_le_right _ _
  · intro bs bs2 ps
    simp only [calculateRiskScore, foldl_add_bonus, jsRound_eq, List.length_append,
      List.map_append, List.sum_append]
    apply min_le_min _ le_rfl
    apply Int.floor_le_floor
    have := bonus_sum_nonneg bs2
    have : ((bs.length + bs2.length : ℕ) : ℚ) = (bs.length : ℚ) + (bs2.length : ℚ) := by
      push_cast; ring
    rw [this]
    have := bonus_sum_nonneg bs2
    linarith
  · intro s
    unfold getRiskLevel
    split_ifs with h1 h2 h3 <;>
      refine ⟨?_, ?_, ?_, ?_⟩ <;> simp <;> omega

/-! ### C7: batch analysis -/

/-- Each batch entry reports its own success: the entry built for a
text succeeds exactly when analyzing that text succeeds, and it carries
the index it was built with. -/
theorem analyzeOne_success {α : Type} (analyze : String → Except String α)
    (idx : ℕ) (text : String) :
    (analyzeOne analyze idx text).success = (analyze text).isOk
    ∧ (analyzeOne analyze idx text).index = idx := by
  unfold analyzeOne
  cases analyze text <;> simp [Except.isOk, Except.toBool]

/-- C7: for every batch of 1 to 50 texts, the batch result has exactly
one entry per text, the entry indices are the input positions in order,
each entry's success flag depends only on analyzing its own text (one
item's failure cannot abort the others), and the summary counters
satisfy successful + failed = N with total = N. -/
theorem batch_roundtrip {α : Type} (analyze : String → Except String α)
    (texts : List String) (h1 : 1 ≤ texts.length) (h50 : texts.length ≤ 50) :
    (batchAnalyze analyze texts).results.length = texts.length
    ∧ (batchAnalyze analyze texts).results.map (fun e => e.index)
      = List.range texts.length
    ∧ (∀ i (hi : i < texts.length)
        (hr : i < (batchAnalyze analyze texts).results.length),
        ((batchAnalyze analyze texts).results.get ⟨i, hr⟩).success
          = (analyze (texts.get ⟨i, hi⟩)).isOk)
    ∧ (batchAnalyze analyze texts).summary.successful
        + (batchAnalyze analyze texts).summary.failed = texts.length
    ∧ (batchAnalyze analyze texts).summary.total = texts.length := by
  refine ⟨?_, ?_, ?_, ?_, rfl⟩
  · simp [batchAnalyze, List.enum_length]
  · simp only [batchAnalyze, List.map_map]
    have hcomp : ((fun e : BatchItem α => e.index)
          ∘ (fun p : ℕ × String => analyzeOne analyze p.1 p.2))
        = fun p : ℕ × String => p.1 := by
      funext p
      exact (analyzeOne_success analyze p.1 p.2).2
    rw [hcomp]
    exact List.enum_map_fst texts
  · intro i hi hr
    have hres : (batchAnalyze analyze texts).results
        = texts.enum.map (fun p => analyzeOne analyze p.1 p.2) := rfl
    have hi2 : i < (texts.enum.map (fun p => analyzeOne analyze p.1 p.2)).length := by
      rw [← hres]; exact hr
    have hsame : (batchAnalyze analyze texts).results.get ⟨i, hr⟩
        = (texts.enum.map (fun p => analyzeOne analyze p.1 p.2)).get ⟨i, hi2⟩ := rfl
    rw [hsame, List.get_eq_getElem, List.getElem_map, List.getElem_enum]
    exact (analyzeOne_success analyze i (texts.get ⟨i, hi⟩)).1
  · have hle : ((texts.enum.map (fun p => analyzeOne analyze p.1 p.2)).filter
          (fun r => r.success)).length
        ≤ (texts.enum.map (fun p => analyzeOne analyze p.1 p.2)).length :=
      List.length_filter_le _ _
    have hlen : (texts.enum.map (fun p => analyzeOne analyze p.1 p.2)).length
        = texts.length := by
      rw [List.length_map, List.enum_length]
    simp only [batchAnalyze]
    omega

/-- Witness for C7 at a concrete singleton batch. -/
theorem batch_roundtrip_witness :
    1 ≤ (["alpha"] : List String).length
    ∧ (batchAnalyze (fun s => (Except.ok s : Except String String)) ["alpha"]).summary.successful
      + (batchAnalyze (fun s => (Except.ok s : Except String String)) ["alpha"]).summary.failed
      = 1 :=
  ⟨by decide, (batch_roundtrip (fun s => (Except.ok s : Except String String)) ["alpha"]
    (by decide) (by decide)).2.2.2.1⟩

/-! ### C4: the fallback overview -/

/-- The last element of a mapped range is the image of the top index. -/
theorem getLast_map_range (g : ℕ → ℤ) (n : ℕ) :
    ((List.range (n + 1)).map g).getLast? = some (g n) := by
  rw [List.range_succ, List.map_append]
  simp

/-- C4: when every candidate endpoint fails or yields no pulse inside
the window — the filtered pulse set is empty — getOverview flags the
fallback, its threatTrends has exactly one entry per requested day,
the trend dates are the consecutive strictly increasing calendar days
ending on the current date, and the topThreats list and every band of
the risk distribution are populated. -/
theorem getOverview_fallback (days : ℕ) (now : ℤ) (usedKey : Bool) (r : ℕ → ℚ)
    (pulses : List Pulse) (hdays : 1 ≤ days)
    (hfail : pulses.filter (inWindow now days) = []) :
    (getOverview days now usedKey r pulses).usingFallback = true
    ∧ (getOverview days now usedKey r pulses).threatTrends.length = days
    ∧ (getOverview days now usedKey r pulses).threatTrends.map (fun e => e.date)
      = (List.range days).map (fun (j : ℕ) => now + 1 + (j : ℤ) - days)
    ∧ ((getOverview days now usedKey r pulses).threatTrends.map (fun e => e.date)).getLast?
      = some now
    ∧ (getOverview days now usedKey r pulses).threatTrends ≠ []
    ∧ (getOverview days now usedKey r pulses).topThreats.length = 5
    ∧ 0 < (getOverview days now usedKey r pulses).riskDistribution.critical
    ∧ 0 < (getOverview days now usedKey r pulses).riskDistribution.high
    ∧ 0 < (getOverview days now usedKey r pulses).riskDistribution.medium
    ∧ 0 < (getOverview days now usedKey r pulses).riskDistribution.low := by
  have hov : getOverview days now usedKey r pulses
      = { metrics := (generateFallbackData r days now).metrics
          threatTrends := (generateFallbackData r days now).threatTrends
          topThreats := (generateFallbackData r days now).topThreats
          riskDistribution := (generateFallbackData r days now).riskDistribution
          rawPulses := 0, rawIndicators := 0
          usedApiKey := usedKey, usingFallback := true } := by
    unfold getOverview
    rw [hfail]
    rfl
  have htrends : (generateFallbackData r days now).threatTrends
      = (List.range days).map (fun j =>
          ({ date := now - ((days - 1 - j : ℕ) : ℤ)
             threats := (jsFloor (r (2 * j) * 40)).toNat + 20
             resolved := (jsFloor ((((jsFloor (r (2 * j) * 40)).toNat + 20 : ℕ) : ℚ)
               * (6/10 + r (2 * j + 1) * (3/10)))).toNat } : TrendEntry)) := rfl
  have hlen : (getOverview days now usedKey r pulses).threatTrends.length = days := by
    rw [hov, htrends, List.length_map, List.length_range]
  have hdates : (getOverview days now usedKey r pulses).threatTrends.map (fun e => e.date)
      = (List.range days).map (fun (j : ℕ) => now + 1 + (j : ℤ) - days) := by
    rw [hov, htrends, List.map_map]
    apply List.map_congr_left
    intro j hj
    rw [List.mem_range] at hj
    simp only [Function.comp]
    omega
  refine ⟨by rw [hov], hlen, hdates, ?_, ?_, ?_, ?_, ?_, ?_, ?_⟩
  · rw [hdates]
    obtain ⟨d, rfl⟩ : ∃ d, days = d + 1 := ⟨days - 1, by omega⟩
    rw [getLast_map_range]
    congr 1
    omega
  · intro hn
    rw [hn] at hlen
    simp at hlen
    omega
  · rw [hov]
    rfl
  · rw [hov]
    have hc : (generateFallbackData r days now).riskDistribution.critical
        = (jsFloor (r (2 * days + 10) * 25)).toNat + 5 := rfl
    rw [hc]; omega
  · rw [hov]
    have hc : (generateFallbackData r days now).riskDistribution.high
        = (jsFloor (r (2 * days + 10 + 1) * 80)).toNat + 40 := rfl
    rw [hc]; omega
  · rw [hov]
    have hc : (generateFallbackData r days now).riskDistribution.medium
        = (jsFloor (r (2 * days + 10 + 2) * 150)).toNat + 100 := rfl
    rw [hc]; omega
  · rw [hov]
    have hc : (generateFallbackData r days now).riskDistribution.low
        = (jsFloor (r (2 * days + 10 + 3) * 100)).toNat + 50 := rfl
    rw [hc]; omega

/-- Witness for C4 with a seven-day window, all endpoints failed. -/
theorem getOverview_fallback_witness :
    1 ≤ 7
    ∧ (getOverview 7 0 false (fun _ => 0) []).usingFallback = true :=
  ⟨by decide, (getOverview_fallback 7 0 false (fun _ => 0) [] (by decide) rfl).1⟩

/-! ### C5: the per-day resolved count -/

/-- C5 exposes a code bug: with three pulses tallied on the same
current day, each with no indicators, the real-data path adds
round(0.7 times the running threat count) on every pulse, giving the
day threats 3 but resolved 4 — above the threats themselves and not
the round(0.7 times 3) = 2 that the specified per-day 70 percent rule
(and the code comment promising 60-85 percent resolution) produces. -/
theorem trend_resolved_overaccumulates :
    (getOverview 1 0 false (fun _ => 0)
        [{ indicators := 0, tags := [], modified := some 0, created := none, updated := none },
         { indicators := 0, tags := [], modified := some 0, created := none, updated := none },
         { indicators := 0, tags := [], modified := some 0, created := none, updated := none }]).threatTrends
      = [{ date := 0, threats := 3, resolved := 4 }]
    ∧ round70 3 = 2
    ∧ (4 : ℕ) ≠ round70 3 := by
  exact ⟨by decide, by decide, by decide⟩
